import Mathlib

/-!
Verification of the SpaceTraders fleet controller against its design
specification.  The Python source is shallowly embedded: dataclasses become
structures, dict-based payloads become records with `Option` fields, remote
HTTP calls are modelled by oracles supplying the parsed responses, and raised
Python exceptions become `Except` errors.  Python standard-library calls
(`heapq`, attribute lookup, keyword-argument binding) are modelled by their
documented semantics.
-/

namespace SpaceTraders

/-- A raised Python exception, as far as the embedded fragments need it:
`AttributeError` carries the class and the missing attribute name,
`TypeError` carries the callee and the rejected keyword argument. -/
inductive PyError where
  | attributeError (cls : String) (attr : String)
  | typeError (callee : String) (kw : String)
deriving DecidableEq, Repr

/-- Python truthiness of an optional string (`None` and `""` are falsy). -/
def strTruthy : Option String → Bool
  | some s => s ≠ ""
  | none => false

/-- Python `x or default` for an optional string operand: the string itself
when truthy, otherwise the default. -/
def strOr (x : Option String) (dflt : String) : String :=
  match x with
  | some s => if s = "" then dflt else s
  | none => dflt

/-! ## Event queue — `class MinHeap` (src/flow/queue.py, lines 8-28)

The instance state is `self.heap` (a list of `(priority, sequence, item)`
tuples) and `self._sequence`.  `heapq.heappush`/`heappq.heappop` are modelled
by their documented contract: the heap is a bag of entries and `heappop`
removes the entry that is smallest in the tuple order.  Pushed entries carry
pairwise distinct sequence numbers, so tuple comparison is decided by the
`(priority, sequence)` prefix and never reaches the item. -/

/-- State of a `MinHeap` instance: the entry list and the `_sequence`
counter (both initialised empty/0 by `__init__`). -/
structure MinHeap (π : Type) (α : Type) where
  heap : List (π × Nat × α) := []
  seq : Nat := 0
deriving Repr, DecidableEq

/-- The `(priority, sequence)` prefix of a heap entry, which decides Python
tuple comparison whenever sequence numbers are distinct. -/
def entryKey {π α : Type} (e : π × Nat × α) : π × Nat := (e.1, e.2.1)

/-- Lexicographic strict order on `(priority, sequence)` keys. -/
def keyLt {π : Type} [LinearOrder π] (a b : π × Nat) : Prop :=
  a.1 < b.1 ∨ (a.1 = b.1 ∧ a.2 < b.2)

/-- Lexicographic non-strict order on `(priority, sequence)` keys. -/
def keyLe {π : Type} [LinearOrder π] (a b : π × Nat) : Prop :=
  a.1 < b.1 ∨ (a.1 = b.1 ∧ a.2 ≤ b.2)

instance {π : Type} [LinearOrder π] (a b : π × Nat) : Decidable (keyLt a b) := by
  unfold keyLt; infer_instance

instance {π : Type} [LinearOrder π] (a b : π × Nat) : Decidable (keyLe a b) := by
  unfold keyLe; infer_instance

/-- Running minimum underlying `pickMin`: keep the current candidate while
it is `keyLe` the next entry, else switch. -/
def pickMinAux {π α : Type} [LinearOrder π] (e : π × Nat × α) :
    List (π × Nat × α) → π × Nat × α
  | [] => e
  | x :: xs =>
    if keyLe (entryKey e) (entryKey x) then pickMinAux e xs else pickMinAux x xs

/-- The entry `heapq.heappop` would remove: the tuple-smallest element of the
bag (an earlier position wins a full key tie, which cannot occur for entries
with distinct sequence numbers). -/
def pickMin {π α : Type} [LinearOrder π] : List (π × Nat × α) → Option (π × Nat × α)
  | [] => none
  | e :: es => some (pickMinAux e es)

/-- Remove the first occurrence of an entry from the heap list. -/
def removeFirst {π α : Type} [DecidableEq π] [DecidableEq α] :
    List (π × Nat × α) → (π × Nat × α) → List (π × Nat × α)
  | [], _ => []
  | x :: xs, e => if x = e then xs else x :: removeFirst xs e

/-- `MinHeap.insert` (queue.py lines 21-24): increment `self._sequence`, then
`heappush(self.heap, (priority, self._sequence, item))`. -/
def MinHeap.insert {π α : Type} (h : MinHeap π α) (item : α) (priority : π) :
    MinHeap π α :=
  { heap := (priority, h.seq + 1, item) :: h.heap, seq := h.seq + 1 }

/-- `MinHeap.peek` (queue.py lines 17-19): the smallest element's item, or
`None` on an empty heap. -/
def MinHeap.peek {π α : Type} [LinearOrder π] (h : MinHeap π α) : Option α :=
  (pickMin h.heap).map (fun e => e.2.2)

/-- `MinHeap.extract_min` (queue.py lines 26-28): `heappop` the smallest
entry and return its item, or `None` on an empty heap. -/
def MinHeap.extract_min {π α : Type} [LinearOrder π] [DecidableEq π] [DecidableEq α]
    (h : MinHeap π α) : Option α × MinHeap π α :=
  match pickMin h.heap with
  | none => (none, h)
  | some e => (some e.2.2, { h with heap := removeFirst h.heap e })

/-- The entry that `extract_min` removes, when the heap is non-empty. -/
def MinHeap.poppedEntry {π α : Type} [LinearOrder π] (h : MinHeap π α) :
    Option (π × Nat × α) :=
  pickMin h.heap

/-- The attribute names defined by `class MinHeap` (queue.py lines 8-28):
`__init__`, `peek`, `insert` and `extract_min` — and nothing else. -/
def minHeapClassAttrs : List String := ["__init__", "peek", "insert", "extract_min"]

/-- Python attribute lookup on a `MinHeap` instance: resolving a name that is
not among the class attributes raises `AttributeError`. -/
def minHeapGetAttr (name : String) : Except PyError Unit :=
  if minHeapClassAttrs.contains name then Except.ok () else
    Except.error (PyError.attributeError "MinHeap" name)

/-- `build_app` start-up enqueue step (src/app/bootstrap.py line 54):
`event_queue.push(ship.symbol, dispatcher.shipReadiness(ship.symbol))`,
which first resolves the attribute `push` on the `MinHeap` instance. -/
def bootstrapPushCall {π α : Type} (q : MinHeap π α) (item : α) (priority : π) :
    Except PyError (MinHeap π α) := do
  let _ ← minHeapGetAttr "push"
  pure (q.insert item priority)

/-- `build_app` start-up size report (bootstrap.py line 62):
`event_queue.size()`, which resolves the attribute `size`. -/
def bootstrapSizeCall {π α : Type} (q : MinHeap π α) : Except PyError Nat := do
  let _ ← minHeapGetAttr "size"
  pure q.heap.length

/-- Scheduler tick head inspection (src/flow/scheduler.py line 12):
`ctx.event_queue.peek_next_priority()`, resolving `peek_next_priority`. -/
def schedulerPeekCall {π α : Type} [LinearOrder π] (q : MinHeap π α) :
    Except PyError (Option α) := do
  let _ ← minHeapGetAttr "peek_next_priority"
  pure q.peek

/-- Scheduler tick re-enqueue (scheduler.py line 56):
`ctx.event_queue.push(ship.symbol, readiness)`. -/
def schedulerPushCall {π α : Type} (q : MinHeap π α) (item : α) (priority : π) :
    Except PyError (MinHeap π α) := do
  let _ ← minHeapGetAttr "push"
  pure (q.insert item priority)

/-! ## Domain enums

Modelled from the spec: the module `data/enums.py` is imported throughout the
source but is not under src/; the spec fixes the members used by the core
(§3, §4.5: actions, runtime states, nav statuses, roles, traits). -/

/-- Modelled from the spec: `ShipAction ∈ {NOOP, REFUEL, NAVIGATE_TO_MINE,
EXTRACT_MINERALS, PROBE_VISIT_MARKET}` (spec §4.5); `data/enums.py` is not
under src/. -/
inductive ShipAction where
  | NOOP | REFUEL | NAVIGATE_TO_MINE | EXTRACT_MINERALS | PROBE_VISIT_MARKET
deriving DecidableEq, Repr

/-- Runtime FSM states (src/data/models/runtime.py lines 6-9). -/
inductive ShipState where
  | IDLE | NAVIGATING | MINING
deriving DecidableEq, Repr

/-- Modelled from the spec: nav status ∈ {DOCKED, IN_ORBIT, IN_TRANSIT}
(spec §3); `data/enums.py` is not under src/. -/
inductive ShipNavStatus where
  | DOCKED | IN_ORBIT | IN_TRANSIT
deriving DecidableEq, Repr

/-- Modelled from the spec: roles EXCAVATOR and SATELLITE/probe (spec §3,
glossary); `data/enums.py` is not under src/. -/
inductive ShipRole where
  | EXCAVATOR | SATELLITE | COMMAND
deriving DecidableEq, Repr

/-! ## Ship dataclasses (src/data/models/ship.py) -/

/-- `ShipRegistration` (ship.py lines 7-11). -/
structure ShipRegistration where
  regName : Option String := none
  factionSymbol : Option String := none
  role : Option ShipRole := none
deriving DecidableEq, Repr

/-- `ShipNavRoute` (ship.py lines 23-29); the two endpoint waypoints are
kept as their symbols, the only field of them the embedded code reads. -/
structure ShipNavRoute where
  departureSymbol : Option String := none
  destinationSymbol : Option String := none
  departureTime : Option String := none
  arrival : Option String := none
  distance : Option Int := none
deriving DecidableEq, Repr

/-- `ShipNav` (ship.py lines 32-38). -/
structure ShipNav where
  systemSymbol : Option String := none
  waypointSymbol : Option String := none
  route : Option ShipNavRoute := none
  status : Option ShipNavStatus := none
deriving DecidableEq, Repr

/-- `ShipFuel` (ship.py lines 49-52). -/
structure ShipFuel where
  current : Int := 0
  capacity : Int := 0
deriving DecidableEq, Repr

/-- `ShipCooldown` (ship.py lines 55-58).  The dataclass defines exactly the
fields `totalSeconds` and `remainingSeconds`; in particular there is no
`expiration` attribute. -/
structure ShipCooldown where
  totalSeconds : Int := 0
  remainingSeconds : Int := 0
deriving DecidableEq, Repr

/-- The attribute names defined by the `ShipCooldown` dataclass
(ship.py lines 55-58). -/
def shipCooldownAttrs : List String := ["totalSeconds", "remainingSeconds"]

/-- Python attribute access `<ShipCooldown>.expiration`, as written at
src/policy/dispatcher.py lines 45 and 82: looked up against the dataclass
attribute set, it raises `AttributeError`. -/
def ShipCooldown.getExpiration (_c : ShipCooldown) : Except PyError String :=
  if shipCooldownAttrs.contains "expiration" then Except.ok "" else
    Except.error (PyError.attributeError "ShipCooldown" "expiration")

/-- `getattr(ship.cooldown, "expiration", "")` as the executor writes it
(src/policy/executor.py line 214): the defaulted lookup returns `""`. -/
def ShipCooldown.getExpirationOrEmpty (_c : ShipCooldown) : String :=
  if shipCooldownAttrs.contains "expiration" then "" else ""

/-- `ShipCargo` (ship.py lines 61-64). -/
structure ShipCargo where
  capacity : Int := 0
  units : Int := 0
deriving DecidableEq, Repr

/-- `Ship` (ship.py lines 67-75).  `engine` is omitted: no embedded code
reads it.  `fuel`, `cargo` and `cooldown` are always present (dataclass
default factories), hence not optional. -/
structure Ship where
  symbol : String
  registration : ShipRegistration := {}
  nav : ShipNav := {}
  fuel : ShipFuel := {}
  cargo : ShipCargo := {}
  cooldown : ShipCooldown := {}
deriving DecidableEq, Repr

/-! ## Per-ship runtime (src/data/models/runtime.py) -/

/-- The open `context` mapping of `ShipRuntime`, restricted to the keys the
core reads and writes: `target_market`, `selling`, `destination`,
`mine_target`.  An absent key is `none`; `selling` is stored as the Python
truthiness of the value (the code only ever stores `True` or pops it). -/
structure RtContext where
  target_market : Option String := none
  selling : Bool := false
  destination : Option String := none
  mine_target : Option String := none
deriving DecidableEq, Repr

/-- `ShipRuntime` (runtime.py lines 12-16). -/
structure ShipRuntime where
  state : ShipState := ShipState.IDLE
  next_wakeup_ts : Option String := none
  context : RtContext := {}
deriving DecidableEq, Repr

/-! ## Market data records (dict payloads of src/data/warehouse.py) -/

/-- One `tradeGoods` entry: a dict with optional `symbol`,
`purchasePrice`, `sellPrice`, `tradeVolume`, `supply`, `activity` keys
(absent and `None` values collapse to `none`). -/
structure TradeGood where
  symbol : Option String := none
  purchasePrice : Option Int := none
  sellPrice : Option Int := none
  tradeVolume : Option Int := none
  supply : Option String := none
  activity : Option String := none
deriving DecidableEq, Repr

/-- The snapshot dict built by `upsert_market_snapshot`
(warehouse.py lines 178-183): keys `systemSymbol`, `waypointSymbol`,
`seenAt`, `tradeGoods`. -/
structure Snapshot where
  systemSymbol : String
  waypointSymbol : String
  seenAt : String
  tradeGoods : List TradeGood
deriving DecidableEq, Repr

/-- A market payload dict as consumed by `upsert_market_snapshot`: its
`symbol`, `waypointSymbol` and `tradeGoods` keys (a payload that is not a
dict is handled separately by the caller model). -/
structure MarketPayload where
  symbol : Option String := none
  waypointSymbol : Option String := none
  tradeGoods : Option (List TradeGood) := none
deriving DecidableEq, Repr

/-- One entry of `goods_observations` (warehouse.py lines 214-223). -/
structure GoodObs where
  systemSymbol : String := ""
  waypointSymbol : String := ""
  purchasePrice : Option Int := none
  sellPrice : Option Int := none
  seenAt : String := ""
deriving DecidableEq, Repr

/-- A `SystemWaypointRef` as the distance helpers read it: coordinates by
waypoint symbol (src/data/models/system.py; only `x`/`y` are read by the
embedded fragments). -/
structure WaypointRef where
  symbol : String
  x : Int := 0
  y : Int := 0
deriving DecidableEq, Repr

/-! ## Warehouse (src/data/warehouse.py lines 18-35)

Python dicts keyed by strings are embedded as association lists; only the
fields the verified fragments touch are carried. -/

/-- Look up a key in an association list (Python `d.get(k)`). -/
def lookupA {β : Type} (l : List (String × β)) (k : String) : Option β :=
  (l.find? (fun p => p.1 = k)).map (fun p => p.2)

/-- Store a key (Python `d[k] = v`): replace the binding if present,
otherwise append. -/
def updateA {β : Type} : List (String × β) → String → β → List (String × β)
  | [], k, v => [(k, v)]
  | (k0, v0) :: rest, k, v =>
    if k0 = k then (k0, v) :: rest else (k0, v0) :: updateA rest k v

/-- The warehouse state (warehouse.py lines 18-35) restricted to the fields
the verified fragments read or write. -/
structure Warehouse where
  credits : Int := 0
  ships_by_symbol : List (String × Ship) := []
  waypoints_by_symbol : List (String × WaypointRef) := []
  full_waypoints_by_symbol : List (String × List String) := []
  market_prices_by_waypoint : List (String × Snapshot) := []
  goods_observations : List (String × List GoodObs) := []
  runtime : List (String × ShipRuntime) := []
deriving Repr

/-! ## Warehouse market operations (src/data/warehouse.py) -/

/-- The effective waypoint key of a market payload
(warehouse.py lines 154-156): `market_data.get("symbol") or
market_data.get("waypointSymbol")`, and the early return when that is
falsy. -/
def marketWaypointKey (m : MarketPayload) : Option String :=
  if strTruthy m.symbol then m.symbol
  else if strTruthy m.waypointSymbol then m.waypointSymbol
  else none

/-- `_extract_price_map` (warehouse.py lines 160-173): a dict from good
symbol to `(purchasePrice, sellPrice)`, skipping entries with a falsy
symbol; built by successive dict stores. -/
def extractPriceMap (goods : List TradeGood) :
    List (String × (Option Int × Option Int)) :=
  goods.foldl
    (fun acc g =>
      match g.symbol with
      | some s => if s = "" then acc else updateA acc s (g.purchasePrice, g.sellPrice)
      | none => acc)
    []

/-- `upsert_market_snapshot` (warehouse.py lines 151-206).  The
`isinstance(market_data, dict)` guard at line 152 is discharged by the
`MarketPayload` type; a falsy waypoint key returns the warehouse unchanged.
The returned Bool is `prices_unchanged`, which from line 185 on only selects
between two logging styles and has no state effect. -/
def upsertMarketSnapshot (w : Warehouse) (sys : String) (m : MarketPayload)
    (now : String) : Warehouse × Bool :=
  match marketWaypointKey m with
  | none => (w, false)
  | some wp =>
    let previous := lookupA w.market_prices_by_waypoint wp
    let prevPrices := extractPriceMap
      (match previous with | some s => s.tradeGoods | none => [])
    let incPrices := extractPriceMap (m.tradeGoods.getD [])
    let unchanged := decide (prevPrices ≠ []) && decide (prevPrices = incPrices)
    let snap : Snapshot :=
      { systemSymbol := sys, waypointSymbol := wp, seenAt := now,
        tradeGoods := m.tradeGoods.getD [] }
    ({ w with market_prices_by_waypoint :=
        updateA w.market_prices_by_waypoint wp snap }, unchanged)

/-- The fold inside `get_best_sell_observation`: Python
`max(..., key=sellPrice, default=None)` over the observations that carry a
numeric `sellPrice`, keeping the first maximum on ties. -/
def bestSellFold (l : List GoodObs) : Option (GoodObs × Int) :=
  l.foldl
    (fun acc o =>
      match o.sellPrice with
      | none => acc
      | some p =>
        match acc with
        | none => some (o, p)
        | some (b, q) => if p > q then some (o, p) else some (b, q))
    none

/-- `get_best_sell_observation` (warehouse.py lines 299-307). -/
def getBestSellObservation (w : Warehouse) (good : String) : Option GoodObs :=
  let obsList := (lookupA w.goods_observations good).getD []
  if obsList = [] then none
  else (bestSellFold obsList).map (fun p => p.1)

/-! ## Rate-limited transport (src/api/handle_requests.py)

A response is modelled by its status code, the presence of the
`x-ratelimit-limit` header, and the outcome of `resp.json()`.  The retrying
session is an oracle giving the response of the n-th HTTP call of a helper
invocation.  Sleeps have no state effect and are not modelled. -/

/-- The `error` member of a parsed response body, when the body is a dict
and the member is itself a dict (`err.get("code")`, `err.get("message")`). -/
structure ErrObj where
  code : Option Int := none
  message : Option String := none
deriving DecidableEq, Repr

/-- Outcome of `resp.json()`: a raise, a non-dict value, or a dict with an
optional `error` member (absent or non-dict `error` collapse to `none`). -/
inductive RespBody where
  | invalid
  | nonDict
  | obj (error : Option ErrObj)
deriving DecidableEq, Repr

/-- An HTTP response as the helpers inspect it. -/
structure HttpResponse where
  status : Int
  hasRateLimitHeaders : Bool := false
  body : RespBody
deriving DecidableEq, Repr

/-- Process termination raised by `_abort_on_token_reset_mismatch`:
`SystemExit(1)` after printing `f"{code}: {message}"` to stderr.
`SystemExit` derives from `BaseException`, so none of the source's
`except Exception` blocks catches it. -/
structure Abort where
  exitCode : Int
  emitted : String
deriving DecidableEq, Repr

/-- Whether a response body is a dict whose `error.code` equals 4113. -/
def bodyIs4113 : RespBody → Bool
  | RespBody.obj (some e) => e.code = some 4113
  | _ => false

/-- Python `print(f"{code}: {message}")` for the 4113 error object. -/
def abortMessage (e : ErrObj) : String :=
  "4113: " ++ (match e.message with | some s => s | none => "None")

/-- The `Abort` raised for a 4113 response. -/
def abortFor (r : HttpResponse) : Abort :=
  match r.body with
  | RespBody.obj (some e) => { exitCode := 1, emitted := abortMessage e }
  | _ => { exitCode := 1, emitted := "" }

/-- `_abort_on_token_reset_mismatch` (handle_requests.py lines 58-71): a
body that fails to parse or is not a dict returns; a dict whose `error`
member is a dict with `code == 4113` prints the message and raises
`SystemExit(1)`. -/
def abortCheck (r : HttpResponse) : Except Abort Unit :=
  if bodyIs4113 r.body then Except.error (abortFor r) else Except.ok ()

/-- `_handle_spacetraders_429` (handle_requests.py lines 73-98): `True`
exactly when the response is a 429 carrying the `x-ratelimit-limit`
header (every such path sleeps, then returns `True`). -/
def handle429 (r : HttpResponse) : Bool :=
  r.status = 429 && r.hasRateLimitHeaders

/-- The shared request/abort/retry pipeline of `spacetraders_get`
(lines 100-114), `post_json` (lines 129-141) and `patch_json`
(lines 143-155): issue the request, run the 4113 abort check, and on a
header-carrying 429 sleep and retry once, abort-checking the retry; a 502
only sleeps.  The oracle gives the n-th response of this invocation. -/
def awareRequest (o : Nat → HttpResponse) : Except Abort HttpResponse := do
  let r0 := o 0
  let _ ← abortCheck r0
  if handle429 r0 then do
    let r1 := o 1
    let _ ← abortCheck r1
    pure r1
  else
    pure r0

/-- `get_json` (handle_requests.py lines 119-127): `spacetraders_get` then
`resp.json()`. -/
def getJson (o : Nat → HttpResponse) : Except Abort RespBody := do
  let r ← awareRequest o
  pure r.body

/-- `post_json` (handle_requests.py lines 129-141). -/
def postJson (o : Nat → HttpResponse) : Except Abort RespBody := do
  let r ← awareRequest o
  pure r.body

/-- `patch_json` (handle_requests.py lines 143-155). -/
def patchJson (o : Nat → HttpResponse) : Except Abort RespBody := do
  let r ← awareRequest o
  pure r.body

/-! ## Remote oracle and API effects

Every HTTP call the dispatcher fragments can issue is recorded as an
`ApiEffect`; the parsed response content is supplied by a `RemoteOracle`.
The executor notes (spec §4.5) treat the dispatcher as read-only on the
world, so these effects are exactly what claims C2/C4/C6/C8 inspect. -/

/-- One inventory item of a `get_cargo` payload: `item.get("symbol")` and
`item.get("units", 0)`. -/
structure InvItem where
  symbol : Option String := none
  units : Int := 0
deriving DecidableEq, Repr

/-- A waypoint payload as returned by `find_waypoints_by_trait`: its
`symbol`, coordinates, and trait symbols. -/
structure WaypointPayload where
  symbol : Option String := none
  x : Int := 0
  y : Int := 0
  traits : List String := []
deriving DecidableEq, Repr

/-- A remote API call issued while deciding. -/
inductive ApiEffect where
  | getShip (shipSym : String)
  | traitSearch (systemSym : String)
  | getCargo (shipSym : String)
  | jettison (shipSym : String) (good : String) (units : Int)
  | waypointDetailFetch (waypointSym : String)
deriving DecidableEq, Repr

/-- Parsed responses of the remote API, one component per endpoint the
embedded dispatcher/executor fragments consult. -/
structure RemoteOracle where
  getShip : String → Ship
  getCargoInventory : String → List InvItem
  jettisonSucceeds : String → String → Int → Bool
  findMarketWaypoints : String → List WaypointPayload
  getWaypointTraits : String → Option (List String)

/-! ## Distance and trait helpers (src/logic/navigation.py) -/

/-- Squared Euclidean distance between two cached waypoints, `none` playing
the role of `float('inf')` when either waypoint is unknown
(`_waypoint_distance`, navigation.py lines 204-209).  `math.hypot` is
strictly monotone in the squared distance, so every comparison the source
makes on hypot values is made here on squared distances. -/
def waypointDistanceSq (w : Warehouse) (a : Option String) (b : String) :
    Option Int :=
  match a with
  | none => none
  | some aSym =>
    match lookupA w.waypoints_by_symbol aSym, lookupA w.waypoints_by_symbol b with
    | some ra, some rb => some ((ra.x - rb.x) ^ 2 + (ra.y - rb.y) ^ 2)
    | _, _ => none

/-- Distance comparison `d < best` with `none` as infinity
(`inf < y` is false, `x < inf` is true, `inf < inf` is false). -/
def distLt : Option Int → Option Int → Bool
  | some a, some b => a < b
  | some _, none => true
  | none, _ => false

/-- Store trait-search payloads into the warehouse
(`upsert_waypoints_detail`, src/data/warehouse.py lines 75-98): each payload
with a truthy symbol refreshes the cached coordinates and the cached trait
list. -/
def upsertWaypointPayloads (w : Warehouse) (payloads : List WaypointPayload) :
    Warehouse :=
  payloads.foldl
    (fun acc p =>
      match p.symbol with
      | none => acc
      | some s =>
        if s = "" then acc
        else
          { acc with
            waypoints_by_symbol :=
              updateA acc.waypoints_by_symbol s { symbol := s, x := p.x, y := p.y },
            full_waypoints_by_symbol :=
              updateA acc.full_waypoints_by_symbol s p.traits })
    w

/-- `_waypoint_has_trait`'s cache-or-fetch step (navigation.py
lines 313-325): return the cached trait list, or fetch the waypoint detail
and cache it; an unavailable detail leaves the cache alone. -/
def ensureWaypointTraits (w : Warehouse) (o : RemoteOracle) (wp : String) :
    Option (List String) × Warehouse × List ApiEffect :=
  match lookupA w.full_waypoints_by_symbol wp with
  | some ts => (some ts, w, [])
  | none =>
    match o.getWaypointTraits wp with
    | some ts =>
      (some ts,
       { w with full_waypoints_by_symbol :=
           updateA w.full_waypoints_by_symbol wp ts },
       [ApiEffect.waypointDetailFetch wp])
    | none => (none, w, [ApiEffect.waypointDetailFetch wp])

/-- Modelled from the spec: the mineable trait set
`{MINERAL_DEPOSITS, COMMON_METAL_DEPOSITS, PRECIOUS_METAL_DEPOSITS,
RARE_METAL_DEPOSITS, METHANE_POOLS, ICE_CRYSTALS, EXPLOSIVE_GASES}`
(spec §4.5); the enum values live in `data/enums.py`, not under src/.
The list literal mirrors dispatcher.py lines 254-262. -/
def mineableTraits : List String :=
  ["MINERAL_DEPOSITS", "COMMON_METAL_DEPOSITS", "PRECIOUS_METAL_DEPOSITS",
   "RARE_METAL_DEPOSITS", "METHANE_POOLS", "ICE_CRYSTALS", "EXPLOSIVE_GASES"]

/-! ## Markets helpers used by the dispatcher (src/logic/markets.py) -/

/-- The attribute names `Markets` instances expose: the methods defined in
`class Markets` (markets.py) plus those inherited from `Navigation`
(navigation.py).  Neither class defines `find_oldest_marketplace`. -/
def marketsClassAttrs : List String :=
  ["__init__", "refuel_if_available", "find_nearest_marketplace",
   "find_best_marketplace_for_cargo", "find_nearest_unvisited_marketplace",
   "dock_and_sell_all_cargo",
   "navigate_in_system", "jump_to_system", "warp_to_system",
   "wait_until_arrival", "_get_ship_dict", "_refresh_ship", "_ensure_orbit",
   "_ensure_docked", "_maybe_set_flight_mode", "extract_at_current_waypoint",
   "jettison_cargo", "mine_until_full", "_waypoint_distance",
   "_waypoint_has_trait", "quickstart_mine_until_full_and_sell",
   "_distance_hypot", "find_closest_mineable_waypoint",
   "navigate_to_closest_mineable", "quickstart_mine_flow"]

/-- Python attribute lookup on a `Markets` instance. -/
def marketsGetAttr (name : String) : Except PyError Unit :=
  if marketsClassAttrs.contains name then Except.ok () else
    Except.error (PyError.attributeError "Markets" name)

/-- The parameter names of
`Markets.find_best_marketplace_for_cargo(self, ship_symbol)` (markets.py
line 93), `self` excluded.  There is no `min_sell_price` parameter. -/
def findBestMarketplaceForCargoParams : List String := ["ship_symbol"]

/-- Python keyword-argument binding: a keyword that matches no parameter
raises `TypeError` before the callee body runs. -/
def bindKwargs (callee : String) (params : List String) (kwargs : List String) :
    Except PyError Unit :=
  match kwargs.find? (fun k => !params.contains k) with
  | some k => Except.error (PyError.typeError callee k)
  | none => Except.ok ()

/-- One step of the selection loop of `find_nearest_unvisited_marketplace`
(markets.py lines 162-170): skip falsy, already-snapshotted and excluded
symbols, otherwise keep the closer of the accumulator and the candidate. -/
def unvisitedStep (w2 : Warehouse) (current : Option String)
    (exclude : List String) (acc : Option (String × Option Int))
    (p : WaypointPayload) : Option (String × Option Int) :=
  match p.symbol with
  | none => acc
  | some sym =>
    if sym = "" then acc
    else if (lookupA w2.market_prices_by_waypoint sym).isSome then acc
    else if exclude.contains sym then acc
    else
      let d := waypointDistanceSq w2 current sym
      match acc with
      | none => some (sym, d)
      | some (bs, bd) => if distLt d bd then some (sym, d) else some (bs, bd)

def findNearestUnvisitedMarketplace (w : Warehouse) (o : RemoteOracle)
    (shipSym : String) (exclude : List String) :
    Option String × Warehouse × List ApiEffect :=
  let ship := o.getShip shipSym
  let w1 := { w with ships_by_symbol := updateA w.ships_by_symbol ship.symbol ship }
  let system := strOr ship.nav.systemSymbol ""
  let current := ship.nav.waypointSymbol
  let payloads := o.findMarketWaypoints system
  let fx := [ApiEffect.getShip shipSym, ApiEffect.traitSearch system]
  if payloads.isEmpty then (none, w1, fx)
  else
    let w2 := upsertWaypointPayloads w1 payloads
    let best := payloads.foldl (unvisitedStep w2 current exclude) none
    (best.map (fun p => p.1), w2, fx)

/-! ## Dispatcher (src/policy/dispatcher.py) -/

/-- The fallback of `shipReadiness` (dispatcher.py lines 38-51): ship
timers.  `arrival` is `ship.nav.route.arrival` when a route exists (possibly
`None`), else the string `""`; `cooldown` is `ship.cooldown.expiration`,
an attribute the `ShipCooldown` dataclass does not define. -/
def shipReadinessFallback (w : Warehouse) (sym : String) (now : String) :
    Except PyError String :=
  match lookupA w.ships_by_symbol sym with
  | none => Except.ok now
  | some ship => do
    let arrival : Option String :=
      match ship.nav.route with
      | some r => r.arrival
      | none => some ""
    let exp ← ship.cooldown.getExpiration
    Except.ok (max (max (strOr arrival now) (strOr (some exp) now)) now)

/-- `shipReadiness` (dispatcher.py lines 28-51): prefer
`max(runtime.next_wakeup_ts, now)` when the wakeup is truthy, else the ship
timer fallback. -/
def shipReadiness (w : Warehouse) (sym : String) (now : String) :
    Except PyError String :=
  match lookupA w.runtime sym with
  | some rt =>
    if strTruthy rt.next_wakeup_ts then
      Except.ok (max (strOr rt.next_wakeup_ts now) now)
    else shipReadinessFallback w sym now
  | none => shipReadinessFallback w sym now

/-- `_current_wp_sells_fuel` (dispatcher.py lines 60-77): the cached
snapshot of the ship's waypoint lists FUEL with a positive
`purchasePrice`. -/
def currentWpSellsFuel (w : Warehouse) (ship : Ship) : Bool :=
  match ship.nav.waypointSymbol with
  | none => false
  | some wp =>
    if wp = "" then false
    else
      match lookupA w.market_prices_by_waypoint wp with
      | none => false
      | some snap =>
        snap.tradeGoods.any (fun g =>
          g.symbol = some "FUEL" &&
            match g.purchasePrice with
            | some p => p > 0
            | none => false)

/-- `_is_worthy` (dispatcher.py lines 185-197): worthy when the best sell
observation's numeric price exceeds `min_price`, else when any cached
snapshot lists the good above `min_price`. -/
def isWorthy (w : Warehouse) (gsym : String) (minPrice : Int) : Bool :=
  let fallback :=
    w.market_prices_by_waypoint.any (fun p =>
      p.2.tradeGoods.any (fun g =>
        g.symbol = some gsym && g.sellPrice.getD 0 > minPrice))
  match getBestSellObservation w gsym with
  | some best =>
    match best.sellPrice with
    | some p => p > minPrice
    | none => fallback
  | none => fallback

/-- `_jettison_unworthy` (dispatcher.py lines 173-213): read the cargo, and
jettison every item whose good is not worthy; returns whether any jettison
call succeeded, together with the API calls issued. -/
def jettisonUnworthy (w : Warehouse) (o : RemoteOracle) (sym : String)
    (minPrice : Int) : Bool × List ApiEffect :=
  let inventory := o.getCargoInventory sym
  let fx0 := [ApiEffect.getCargo sym]
  if inventory.isEmpty then (false, fx0)
  else
    inventory.foldl
      (fun acc item =>
        match item.symbol with
        | none => acc
        | some g =>
          if g = "" || item.units = 0 then acc
          else if isWorthy w g minPrice then acc
          else
            (acc.1 || o.jettisonSucceeds sym g item.units,
             acc.2 ++ [ApiEffect.jettison sym g item.units]))
      ((false : Bool), fx0)

/-- The truthy cargo symbols of an inventory
(`{i.get("symbol") for i in inventory if ... i.get("symbol")}`). -/
def cargoSymbolsOf (inventory : List InvItem) : List String :=
  inventory.filterMap (fun i =>
    match i.symbol with
    | some s => if s = "" then none else some s
    | none => none)

/-- The nearest-cached-buyer scan of the excavator selling branch
(dispatcher.py lines 139-154): among cached snapshots that sell at least one
cargo good above 10, the closest waypoint. -/
def sellingNextBuyer (w : Warehouse) (ship : Ship) (cargoSyms : List String) :
    Option String :=
  let current := ship.nav.waypointSymbol
  if !strTruthy current || cargoSyms.isEmpty then none
  else
    (w.market_prices_by_waypoint.foldl
      (fun acc p =>
        let sellable := p.2.tradeGoods.filterMap (fun g =>
          if g.sellPrice.getD 0 > 10 then g.symbol else none)
        if !cargoSyms.any (fun c => sellable.contains c) then acc
        else
          let d := waypointDistanceSq w current p.1
          match acc with
          | none => some (p.1, d)
          | some (bs, bd) => if distLt d bd then some (p.1, d) else some (bs, bd))
      none).map (fun p => p.1)

/-- Write back a mutation of one runtime's `context`
(Python mutates the aliased `rt.context` in place). -/
def setContext (w : Warehouse) (sym : String) (rt : ShipRuntime)
    (ctx : RtContext) : Warehouse :=
  { w with runtime := updateA w.runtime sym { rt with context := ctx } }

/-- The `exclude` set the probe branch builds (dispatcher.py lines 102-106):
every runtime context's `target_market` that is a string. -/
def excludeTargets (w : Warehouse) : List String :=
  w.runtime.filterMap (fun p => p.2.context.target_market)

/-- The probe branch of the IDLE state (dispatcher.py lines 98-118): build
the exclude set, pick the nearest unvisited marketplace, and on a truthy
target claim it and return PROBE_VISIT_MARKET.  A falsy target reaches the
call `self.markets.find_oldest_marketplace(...)`, whose attribute lookup
raises `AttributeError`; the enclosing `except` swallows it and control
falls past the excavator check to the final NOOP (line 246). -/
def decideIdleSatellite (w : Warehouse) (o : RemoteOracle) (sym : String)
    (rt : ShipRuntime) : ShipAction × Warehouse × List ApiEffect :=
  let exclude := excludeTargets w
  let r := findNearestUnvisitedMarketplace w o sym exclude
  let w1 := r.2.1
  let fx := r.2.2
  match r.1 with
  | some t =>
    if t ≠ "" then
      (ShipAction.PROBE_VISIT_MARKET,
       setContext w1 sym rt { rt.context with target_market := some t }, fx)
    else
      match marketsGetAttr "find_oldest_marketplace" with
      | Except.error _ => (ShipAction.NOOP, w1, fx)
      | Except.ok _ => (ShipAction.NOOP, w1, fx)
  | none =>
    match marketsGetAttr "find_oldest_marketplace" with
    | Except.error _ => (ShipAction.NOOP, w1, fx)
    | Except.ok _ => (ShipAction.NOOP, w1, fx)

/-- The cargo-full branch of the IDLE excavator (dispatcher.py
lines 224-246): the call at line 227 passes `min_sell_price=10`, a keyword
`Markets.find_best_marketplace_for_cargo` (markets.py line 93) does not
accept, so argument binding raises `TypeError` before the method body runs;
the `except` at lines 244-245 swallows it and the NOOP at line 246 is
returned.  The selling switch at lines 229-243 is dead code. -/
def decideIdleExcavatorFull (w : Warehouse) :
    ShipAction × Warehouse × List ApiEffect :=
  match bindKwargs "find_best_marketplace_for_cargo"
      findBestMarketplaceForCargoParams ["min_sell_price"] with
  | Except.error _ => (ShipAction.NOOP, w, [])
  | Except.ok _ => (ShipAction.NOOP, w, [])

/-- The selling branch of the IDLE excavator when no target is assigned yet
(dispatcher.py lines 129-165): read the cargo, pick the nearest cached buyer
above price 10, claim it, else resume mining. -/
def decideIdleExcavatorScan (w : Warehouse) (o : RemoteOracle) (sym : String)
    (ship : Ship) (rt : ShipRuntime) : ShipAction × Warehouse × List ApiEffect :=
  let inventory := o.getCargoInventory sym
  let fx := [ApiEffect.getCargo sym]
  let cargoSyms := cargoSymbolsOf inventory
  match sellingNextBuyer w ship cargoSyms with
  | some best =>
    if best ≠ "" then
      (ShipAction.PROBE_VISIT_MARKET,
       setContext w sym rt { rt.context with target_market := some best }, fx)
    else (ShipAction.NAVIGATE_TO_MINE, w, fx)
  | none => (ShipAction.NAVIGATE_TO_MINE, w, fx)

/-- The excavator branch of the IDLE state (dispatcher.py lines 119-246). -/
def decideIdleExcavator (w : Warehouse) (o : RemoteOracle) (sym : String)
    (ship : Ship) (rt : ShipRuntime) : ShipAction × Warehouse × List ApiEffect :=
  if rt.context.selling then
    if ship.cargo.units > 0 then
      match rt.context.target_market with
      | some t =>
        if t ≠ "" then (ShipAction.PROBE_VISIT_MARKET, w, [])
        else decideIdleExcavatorScan w o sym ship rt
      | none => decideIdleExcavatorScan w o sym ship rt
    else
      (ShipAction.NAVIGATE_TO_MINE,
       setContext w sym rt
         { rt.context with selling := false, target_market := none }, [])
  else if ship.cargo.units < ship.cargo.capacity then
    let r := jettisonUnworthy w o sym 10
    (ShipAction.NAVIGATE_TO_MINE, w, r.2)
  else if ship.cargo.units ≥ ship.cargo.capacity then
    decideIdleExcavatorFull w
  else (ShipAction.NOOP, w, [])

/-- The IDLE state of the decision tree (dispatcher.py lines 89-246). -/
def decideIdle (w : Warehouse) (o : RemoteOracle) (sym : String) (ship : Ship)
    (rt : ShipRuntime) : ShipAction × Warehouse × List ApiEffect :=
  if ship.fuel.current < ship.fuel.capacity && currentWpSellsFuel w ship &&
      ship.nav.status ≠ some ShipNavStatus.IN_TRANSIT then
    (ShipAction.REFUEL, w, [])
  else if ship.registration.role = some ShipRole.SATELLITE then
    decideIdleSatellite w o sym rt
  else if ship.registration.role = some ShipRole.EXCAVATOR then
    decideIdleExcavator w o sym ship rt
  else (ShipAction.NOOP, w, [])

/-- The NAVIGATING state (dispatcher.py lines 248-271): extract only when
not in transit, at a waypoint with a mineable trait, and matching
`context.mine_target` when that is a string. -/
def decideNavigating (w : Warehouse) (o : RemoteOracle) (_sym : String)
    (ship : Ship) (rt : ShipRuntime) : ShipAction × Warehouse × List ApiEffect :=
  if rt.context.destination = some "MINE" &&
      ship.nav.status ≠ some ShipNavStatus.IN_TRANSIT then
    match ship.nav.waypointSymbol with
    | some cur =>
      if cur ≠ "" then
        let r := ensureWaypointTraits w o cur
        let hasMine :=
          match r.1 with
          | some ts => mineableTraits.any (fun t => ts.contains t)
          | none => false
        let targetOk :=
          match rt.context.mine_target with
          | none => true
          | some t => cur = t
        if hasMine && targetOk then
          (ShipAction.EXTRACT_MINERALS, r.2.1, r.2.2)
        else (ShipAction.NOOP, r.2.1, r.2.2)
      else (ShipAction.NOOP, w, [])
    | none => (ShipAction.NOOP, w, [])
  else (ShipAction.NOOP, w, [])

/-- The MINING state (dispatcher.py lines 273-277). -/
def decideMining (w : Warehouse) (ship : Ship) :
    ShipAction × Warehouse × List ApiEffect :=
  if ship.cargo.units < ship.cargo.capacity then
    (ShipAction.EXTRACT_MINERALS, w, [])
  else (ShipAction.NOOP, w, [])

/-- The decision tree from dispatcher.py line 89 on, entered with the ship
and runtime already looked up. -/
def decideTree (w : Warehouse) (o : RemoteOracle) (sym : String) (ship : Ship)
    (rt : ShipRuntime) : ShipAction × Warehouse × List ApiEffect :=
  match rt.state with
  | ShipState.IDLE => decideIdle w o sym ship rt
  | ShipState.NAVIGATING => decideNavigating w o sym ship rt
  | ShipState.MINING => decideMining w ship

/-- `decide_next_action` (dispatcher.py lines 53-279).  A missing ship or
runtime returns NOOP (lines 54-57).  Otherwise lines 79-81 compute pure
reads and line 82 evaluates `ship.cooldown.expiration`, an attribute the
dataclass does not define; the resulting `AttributeError` propagates (there
is no enclosing `try`). -/
def decideNextAction (w : Warehouse) (o : RemoteOracle) (sym : String) :
    Except PyError (ShipAction × Warehouse × List ApiEffect) :=
  match lookupA w.ships_by_symbol sym, lookupA w.runtime sym with
  | some ship, some rt =>
    (match ship.cooldown.getExpiration with
     | Except.error e => Except.error e
     | Except.ok _ => Except.ok (decideTree w o sym ship rt))
  | some _, none => Except.ok (ShipAction.NOOP, w, [])
  | none, some _ => Except.ok (ShipAction.NOOP, w, [])
  | none, none => Except.ok (ShipAction.NOOP, w, [])

/-! ## Executor re-target after a partial sale (src/policy/executor.py) -/

/-- The nearest-cached-buyer scan of the executor's post-sale block
(executor.py lines 276-293): like the dispatcher scan but accepting any
positive `sellPrice`. -/
def executorNearestBuyer (w : Warehouse) (current : Option String)
    (cargoSyms : List String) : Option String :=
  if !strTruthy current || cargoSyms.isEmpty then none
  else
    (w.market_prices_by_waypoint.foldl
      (fun acc p =>
        let sellable := p.2.tradeGoods.filterMap (fun g =>
          if g.sellPrice.getD 0 > 0 then g.symbol else none)
        if !cargoSyms.any (fun c => sellable.contains c) then acc
        else
          let d := waypointDistanceSq w current p.1
          match acc with
          | none => some (p.1, d)
          | some (bs, bd) => if distLt d bd then some (p.1, d) else some (bs, bd))
      none).map (fun p => p.1)

/-- Jettison every leftover inventory item with a truthy symbol and
positive units (executor.py lines 298-305). -/
def jettisonLeftoverEffects (inventory : List InvItem) (sym : String) :
    List ApiEffect :=
  inventory.filterMap (fun i =>
    match i.symbol with
    | some g =>
      if g ≠ "" && i.units > 0 then some (ApiEffect.jettison sym g i.units)
      else none
    | none => none)

/-- The executor's re-target step after `dock_and_sell_all_cargo` inside
`_probe_visit_market` (executor.py lines 259-309): re-read the cargo; when
units remain, assign the nearest cached buyer as the new `target_market`
(keeping `selling`), else jettison the leftovers and clear
`selling`/`target_market`.  No exclude set is consulted. -/
def executorRetargetAfterSale (w : Warehouse) (o : RemoteOracle) (sym : String) :
    Warehouse × List ApiEffect :=
  let inventory := o.getCargoInventory sym
  let fx := [ApiEffect.getCargo sym]
  let totalUnits := (inventory.map (fun i => i.units)).sum
  match lookupA w.runtime sym with
  | none => (w, fx)
  | some rt =>
    if totalUnits > 0 then
      let cargoSyms := cargoSymbolsOf inventory
      let current := (lookupA w.ships_by_symbol sym).bind (fun s => s.nav.waypointSymbol)
      match executorNearestBuyer w current cargoSyms with
      | some best =>
        (setContext w sym rt
          { rt.context with target_market := some best, selling := true }, fx)
      | none =>
        (setContext w sym rt
          { rt.context with selling := false, target_market := none },
         fx ++ jettisonLeftoverEffects inventory sym)
    else (w, fx)

/-- The multiset of claimed targets: every non-empty
`runtime[*].context.target_market` (spec §8, target claim uniqueness). -/
def claimedTargets (w : Warehouse) : List String :=
  w.runtime.filterMap (fun p =>
    match p.2.context.target_market with
    | some t => if t = "" then none else some t
    | none => none)

/-- The target-uniqueness invariant: no duplicates among claimed targets. -/
def targetsNodup (w : Warehouse) : Bool :=
  claimedTargets w = (claimedTargets w).dedup

/-! ## Dock-and-sell (src/logic/markets.py, `Markets.dock_and_sell_all_cargo`)

The executor sells through the `Markets` override (markets.py
lines 173-275).  The per-item loop body (lines 195-266) is modelled as a
step producing the side effects relevant to claim C10. -/

/-- The market's sellable set (markets.py line 189): goods with a truthy
symbol and positive `sellPrice`. -/
def sellableSet (goods : List TradeGood) : List String :=
  goods.filterMap (fun g =>
    match g.symbol with
    | some s => if s ≠ "" && g.sellPrice.getD 0 > 0 then some s else none
    | none => none)

/-- The parsed `POST /sell` response, collapsed to the fields the loop
reads: the `error` flag, `transaction.totalPrice`,
`transaction.pricePerUnit` and `agent.credits` (absent members are
`none`). -/
structure SellResponse where
  isError : Bool := false
  totalPrice : Option Int := none
  pricePerUnit : Option Int := none
  creditsAfter : Option Int := none
deriving DecidableEq, Repr

/-- A side effect of the per-item sale loop. -/
inductive SellEffect where
  | sellPost (shipSym good : String) (units : Int)
  | creditsSync (credits : Int)
  | insertTransaction (shipSym : String) (waypoint : Option String)
      (action good : String) (units : Int)
      (unitPrice totalPrice creditsAfter : Option Int)
  | tradeLogLine (shipSym waypoint good : String) (units : Int)
      (unitPrice totalPrice : Option Int)
  | refreshShip (shipSym : String)
deriving DecidableEq, Repr

/-- Whether a sale effect is the trades.log write. -/
def SellEffect.isTradeLogLine : SellEffect → Bool
  | SellEffect.tradeLogLine _ _ _ _ _ _ => true
  | _ => false

/-- Whether a sale effect is the persistent transaction insert. -/
def SellEffect.isInsertTransaction : SellEffect → Bool
  | SellEffect.insertTransaction _ _ _ _ _ _ _ _ => true
  | _ => false

/-- One pass of the sale loop of `Markets.dock_and_sell_all_cargo`
(markets.py lines 195-266) for a single inventory item.  `curShipWp` is the
waypoint of the `ship` variable in scope, `refreshedWp` the waypoint of the
ship refreshed inside the log-writing block, `storageInsertRaises` whether
`get_storage()`/`insert_transaction` raises.  The `market_wp_symbol`
fallback for the row waypoint is dead: the `ship` variable is always a
truthy dataclass instance.  The `except` block of the persist `try`
(line 246) contains, after its `pass`, the entire trades.log write
(lines 248-264), so that write runs only when the insert raised. -/
def sellItemStep (shipSym _marketWp : String) (curShipWp : Option String)
    (refreshedWp : String) (goods : List TradeGood) (item : InvItem)
    (resp : SellResponse) (storageInsertRaises : Bool) : List SellEffect :=
  match item.symbol with
  | none => []
  | some g =>
    if g = "" || item.units = 0 then []
    else if !(sellableSet goods).contains g then []
    else
      let fx0 := [SellEffect.sellPost shipSym g item.units]
      if resp.isError then fx0
      else
        let fx1 :=
          match resp.totalPrice, resp.creditsAfter with
          | some _, some c => fx0 ++ [SellEffect.creditsSync c]
          | _, _ => fx0
        let rowWp : Option String := curShipWp
        let fx2 :=
          if storageInsertRaises then
            fx1 ++
              [SellEffect.refreshShip shipSym,
               SellEffect.tradeLogLine shipSym refreshedWp g item.units
                 resp.pricePerUnit resp.totalPrice]
          else
            fx1 ++
              [SellEffect.insertTransaction shipSym rowWp "SELL" g item.units
                 resp.pricePerUnit resp.totalPrice resp.creditsAfter]
        fx2 ++ [SellEffect.refreshShip shipSym]

/-! ## Concrete sample states used by claim evaluations -/

/-- A remote oracle with inert responses: refreshed ships are bare, cargo is
empty, no marketplaces or waypoint details are known. -/
def sampleOracle : RemoteOracle :=
  { getShip := fun s => { symbol := s }
    getCargoInventory := fun _ => []
    jettisonSucceeds := fun _ _ _ => true
    findMarketWaypoints := fun _ => []
    getWaypointTraits := fun _ => none }

/-- A bare known ship. -/
def c2SampleShip : Ship := { symbol := "SHIP-A" }

/-- A warehouse with one known ship and its runtime entry. -/
def c2Warehouse : Warehouse :=
  { ships_by_symbol := [("SHIP-A", c2SampleShip)]
    runtime := [("SHIP-A", {})] }

/-- An IDLE excavator with full cargo, full fuel, not in selling mode. -/
def c4Ship : Ship :=
  { symbol := "EXC-1"
    registration := { role := some ShipRole.EXCAVATOR }
    nav := { systemSymbol := some "X1-A", waypointSymbol := some "X1-A-W0" }
    fuel := { current := 100, capacity := 100 }
    cargo := { capacity := 40, units := 40 } }

/-- Warehouse holding the full excavator and its runtime entry. -/
def c4Warehouse : Warehouse :=
  { ships_by_symbol := [("EXC-1", c4Ship)]
    runtime := [("EXC-1", {})] }

/-- An oracle that always answers with a 4113 error body. -/
def c5Oracle : Nat → HttpResponse := fun _ =>
  { status := 200
    body := RespBody.obj
      (some { code := some 4113, message := some "Token reset_date mismatch" }) }

/-- An IDLE excavator with non-full cargo holding one unsellable good. -/
def c6Ship : Ship :=
  { symbol := "EXC-1"
    registration := { role := some ShipRole.EXCAVATOR }
    nav := { systemSymbol := some "X1-A", waypointSymbol := some "X1-A-W0" }
    fuel := { current := 100, capacity := 100 }
    cargo := { capacity := 40, units := 5 } }

/-- Warehouse with the excavator, its runtime, and no market knowledge, so
every cargo good is judged unworthy. -/
def c6Warehouse : Warehouse :=
  { ships_by_symbol := [("EXC-1", c6Ship)]
    runtime := [("EXC-1", {})] }

/-- Oracle whose cargo read reports 5 units of ICE_WATER. -/
def c6Oracle : RemoteOracle :=
  { sampleOracle with
    getCargoInventory := fun _ => [{ symbol := some "ICE_WATER", units := 5 }] }

/-- An excavator at W0 still holding cargo after a partial sale. -/
def c8Ship : Ship :=
  { symbol := "EXC-1"
    registration := { role := some ShipRole.EXCAVATOR }
    nav := { systemSymbol := some "X1-A", waypointSymbol := some "W0" }
    cargo := { capacity := 40, units := 3 } }

/-- State where runtime PROBE-1 already claims target W1, the only cached
market that buys the excavator's remaining IRON_ORE. -/
def c8Warehouse : Warehouse :=
  { ships_by_symbol := [("EXC-1", c8Ship)]
    waypoints_by_symbol :=
      [("W0", { symbol := "W0", x := 0, y := 0 }),
       ("W1", { symbol := "W1", x := 3, y := 0 })]
    market_prices_by_waypoint :=
      [("W1",
        { systemSymbol := "X1-A", waypointSymbol := "W1",
          seenAt := "2026-01-01T00:00:00Z",
          tradeGoods := [{ symbol := some "IRON_ORE", sellPrice := some 12 }] })]
    runtime :=
      [("PROBE-1", { context := { target_market := some "W1" } }),
       ("EXC-1", { context := { selling := true } })] }

/-- Oracle reporting 3 leftover units of IRON_ORE. -/
def c8Oracle : RemoteOracle :=
  { sampleOracle with
    getCargoInventory := fun _ => [{ symbol := some "IRON_ORE", units := 3 }] }

/-- Probe runtime state for the C8 witness: PROBE-1 claims W1. -/
def c8wWarehouse : Warehouse :=
  { runtime := [("PROBE-1", { context := { target_market := some "W1" } })] }

/-- Oracle for the C8 witness: the probe is at W0 and the system has two
marketplaces W1 and W2, neither snapshotted. -/
def c8wOracle : RemoteOracle :=
  { sampleOracle with
    getShip := fun s =>
      { symbol := s
        nav := { systemSymbol := some "X1-A", waypointSymbol := some "W0" } }
    findMarketWaypoints := fun _ =>
      [{ symbol := some "W1", x := 1, y := 0 },
       { symbol := some "W2", x := 2, y := 0 }] }

/-- Two pushes with the same priority, for the C9 witness (the `insert`
signature types priorities as `int`). -/
def c9Demo : MinHeap Nat String :=
  (({} : MinHeap Nat String).insert "SHIP-A" 5).insert "SHIP-B" 5

/-- Concrete sold good for the C10 scenario. -/
def c10Goods : List TradeGood :=
  [{ symbol := some "IRON_ORE", purchasePrice := some 5, sellPrice := some 12 }]

/-- The inventory item being sold in the C10 scenario. -/
def c10Item : InvItem := { symbol := some "IRON_ORE", units := 40 }

/-- The successful sell response in the C10 scenario. -/
def c10Resp : SellResponse :=
  { totalPrice := some 480, pricePerUnit := some 12, creditsAfter := some 100000 }

/-! ## Supporting lemmas -/

/-- Storing a key makes it retrievable with the stored value. -/
theorem lookupA_updateA_self {β : Type} (l : List (String × β)) (k : String)
    (v : β) : lookupA (updateA l k v) k = some v := by
  induction l with
  | nil => simp [updateA, lookupA]
  | cons hd tl ih =>
    by_cases h : hd.1 = k
    · simp [updateA, h, lookupA]
    · simpa [updateA, h, lookupA, List.find?] using ih

/-- `keyLe` is reflexive. -/
theorem keyLe_refl {π : Type} [LinearOrder π] (a : π × Nat) : keyLe a a := by
  exact Or.inr ⟨rfl, le_refl _⟩

/-- `keyLe` is transitive. -/
theorem keyLe_trans {π : Type} [LinearOrder π] {a b c : π × Nat}
    (hab : keyLe a b) (hbc : keyLe b c) : keyLe a c := by
  rcases hab with h1 | ⟨e1, l1⟩
  · rcases hbc with h2 | ⟨e2, _⟩
    · exact Or.inl (lt_trans h1 h2)
    · exact Or.inl (e2 ▸ h1)
  · rcases hbc with h2 | ⟨e2, l2⟩
    · exact Or.inl (e1 ▸ h2)
    · exact Or.inr ⟨e1.trans e2, le_trans l1 l2⟩

/-- Totality of `keyLe`: when `keyLe a b` fails, `keyLe b a` holds. -/
theorem keyLe_total_of_not {π : Type} [LinearOrder π] {a b : π × Nat}
    (h : ¬ keyLe a b) : keyLe b a := by
  unfold keyLe at h ⊢
  push_neg at h
  obtain ⟨h1, h2⟩ := h
  rcases eq_or_lt_of_le h1 with heq | hlt
  · exact Or.inr ⟨heq, le_of_lt (h2 heq.symm)⟩
  · exact Or.inl hlt

/-- `keyLe` into a strictly larger key stays strict, hence unequal. -/
theorem keyLe_ne_of_lt {π : Type} [LinearOrder π] {a b c : π × Nat}
    (hab : keyLe a b) (hbc : keyLt b c) : a ≠ c := by
  intro rfl_eq
  subst rfl_eq
  rcases hab with h1 | ⟨e1, l1⟩
  · rcases hbc with h2 | ⟨e2, _⟩
    · exact absurd (lt_trans h1 h2) (lt_irrefl _)
    · exact absurd (e2 ▸ h1) (lt_irrefl _)
  · rcases hbc with h2 | ⟨e2, l2⟩
    · exact absurd (e1 ▸ h2) (lt_irrefl _)
    · exact absurd (lt_of_le_of_lt l1 l2) (lt_irrefl _)

/-- The running minimum is the seed or a list member. -/
theorem pickMinAux_mem {π α : Type} [LinearOrder π] :
    ∀ (l : List (π × Nat × α)) (e : π × Nat × α), pickMinAux e l ∈ e :: l := by
  intro l
  induction l with
  | nil => intro e; simp [pickMinAux]
  | cons x xs ih =>
    intro e
    unfold pickMinAux
    by_cases hle : keyLe (entryKey e) (entryKey x)
    · simp only [hle, if_true]
      rcases List.mem_cons.mp (ih e) with h | h
      · simp [h]
      · simp [List.mem_cons_of_mem, h]
    · simp only [hle, if_false]
      rcases List.mem_cons.mp (ih x) with h | h
      · simp [h]
      · simp [List.mem_cons_of_mem, h]

/-- The running minimum's key is `keyLe` the seed's key. -/
theorem pickMinAux_le_seed {π α : Type} [LinearOrder π] :
    ∀ (l : List (π × Nat × α)) (e : π × Nat × α),
      keyLe (entryKey (pickMinAux e l)) (entryKey e) := by
  intro l
  induction l with
  | nil => intro e; exact keyLe_refl _
  | cons x xs ih =>
    intro e
    unfold pickMinAux
    by_cases hle : keyLe (entryKey e) (entryKey x)
    · simp only [hle, if_true]
      exact ih e
    · simp only [hle, if_false]
      exact keyLe_trans (ih x) (keyLe_total_of_not hle)

/-- The running minimum's key is `keyLe` every list member's key. -/
theorem pickMinAux_le_mem {π α : Type} [LinearOrder π] :
    ∀ (l : List (π × Nat × α)) (e : π × Nat × α),
      ∀ f ∈ l, keyLe (entryKey (pickMinAux e l)) (entryKey f) := by
  intro l
  induction l with
  | nil => intro e f hf; simp at hf
  | cons x xs ih =>
    intro e f hf
    unfold pickMinAux
    by_cases hle : keyLe (entryKey e) (entryKey x)
    · simp only [hle, if_true]
      rcases List.mem_cons.mp hf with heq | h
      · rw [heq]
        exact keyLe_trans (pickMinAux_le_seed xs e) hle
      · exact ih e f h
    · simp only [hle, if_false]
      rcases List.mem_cons.mp hf with heq | h
      · rw [heq]
        exact pickMinAux_le_seed xs x
      · exact ih x f h

/-- The entry `pickMin` selects is a member of the list. -/
theorem pickMin_mem {π α : Type} [LinearOrder π] (l : List (π × Nat × α))
    (m : π × Nat × α) (h : pickMin l = some m) : m ∈ l := by
  cases l with
  | nil => simp [pickMin] at h
  | cons e es =>
    unfold pickMin at h
    have := pickMinAux_mem es e
    simp at h
    exact h ▸ this

/-- The entry `pickMin` selects has a key that is `keyLe` every member's
key: `heappop` removes a smallest element. -/
theorem pickMin_le {π α : Type} [LinearOrder π] (l : List (π × Nat × α))
    (m : π × Nat × α) (h : pickMin l = some m) :
    ∀ e ∈ l, keyLe (entryKey m) (entryKey e) := by
  cases l with
  | nil => simp [pickMin] at h
  | cons x xs =>
    unfold pickMin at h
    simp at h
    intro e he
    rcases List.mem_cons.mp he with heq | hmem
    · rw [heq, ← h]
      exact pickMinAux_le_seed xs x
    · rw [← h]
      exact pickMinAux_le_mem xs x e hmem

/-! ## Claim theorems -/

/-- C1: the spec's queue interface is `push(item, priority)`,
`peek_next_priority()`, `extract_min()`, `size()`, and the claim says the
start-up and scheduler calls to `push`, `size` and `peek_next_priority`
succeed.  On the code, `class MinHeap` defines only `peek`, `insert` and
`extract_min`, so each of those calls raises `AttributeError` instead of
succeeding (bootstrap.py lines 54 and 62, scheduler.py lines 12 and 56),
while the three methods that do exist resolve fine. -/
theorem c1_queue_interface_methods_missing :
    bootstrapPushCall ({} : MinHeap String String) "SHIP-1"
        "2026-01-01T00:00:00.000Z"
      = Except.error (PyError.attributeError "MinHeap" "push") ∧
    bootstrapSizeCall ({} : MinHeap String String)
      = Except.error (PyError.attributeError "MinHeap" "size") ∧
    schedulerPeekCall ({} : MinHeap String String)
      = Except.error (PyError.attributeError "MinHeap" "peek_next_priority") ∧
    schedulerPushCall ({} : MinHeap String String) "SHIP-1"
        "2026-01-01T00:00:05.000Z"
      = Except.error (PyError.attributeError "MinHeap" "push") ∧
    minHeapGetAttr "peek" = Except.ok () ∧
    minHeapGetAttr "insert" = Except.ok () ∧
    minHeapGetAttr "extract_min" = Except.ok () :=
  ⟨rfl, rfl, rfl, rfl, rfl, rfl, rfl⟩

/-- C2: the claim says `decide_next_action` never raises and returns NOOP on
malformed state.  The malformed half holds: a missing ship or missing
runtime entry yields NOOP with no mutation and no remote call.  But for
every known ship with a runtime entry the function raises `AttributeError`
at `ship.cooldown.expiration` (dispatcher.py line 82), because the
`ShipCooldown` dataclass defines no such field. -/
theorem c2_dispatcher_noop_on_malformed_but_raises_on_known :
    (∀ (w : Warehouse) (o : RemoteOracle) (sym : String),
        (lookupA w.ships_by_symbol sym = none ∨ lookupA w.runtime sym = none) →
        decideNextAction w o sym = Except.ok (ShipAction.NOOP, w, [])) ∧
    (∀ (w : Warehouse) (o : RemoteOracle) (sym : String) (ship : Ship)
        (rt : ShipRuntime),
        lookupA w.ships_by_symbol sym = some ship →
        lookupA w.runtime sym = some rt →
        decideNextAction w o sym =
          Except.error (PyError.attributeError "ShipCooldown" "expiration")) := by
  constructor
  · intro w o sym hmal
    unfold decideNextAction
    rcases hmal with h | h
    · rw [h]
      cases h2 : lookupA w.runtime sym <;> rfl
    · rw [h]
      cases h1 : lookupA w.ships_by_symbol sym <;> rfl
  · intro w o sym ship rt hs hr
    unfold decideNextAction
    rw [hs, hr]
    rfl

/-- Witness for C2 at concrete inputs: an unknown symbol gets NOOP; the
known ship raises. -/
theorem c2_witness :
    decideNextAction ({} : Warehouse) sampleOracle "GHOST"
        = Except.ok (ShipAction.NOOP, ({} : Warehouse), []) ∧
    decideNextAction c2Warehouse sampleOracle "SHIP-A"
        = Except.error (PyError.attributeError "ShipCooldown" "expiration") :=
  ⟨c2_dispatcher_noop_on_malformed_but_raises_on_known.1 {} sampleOracle
      "GHOST" (Or.inl rfl),
   c2_dispatcher_noop_on_malformed_but_raises_on_known.2 c2Warehouse
      sampleOracle "SHIP-A" c2SampleShip {} rfl rfl⟩

/-- C3: the claim describes both branches of `shipReadiness`.  The wakeup
branch matches the code: a truthy `runtime.next_wakeup_ts` yields
`max(next_wakeup_ts, now)`.  The fallback branch cannot return
`max(arrival, cooldown.expiration, now)`: it evaluates
`ship.cooldown.expiration` (dispatcher.py line 45), an attribute the
`ShipCooldown` dataclass does not define, and raises `AttributeError` for
every known ship. -/
theorem c3_ship_readiness_wakeup_ok_fallback_raises :
    (∀ (w : Warehouse) (sym now : String) (rt : ShipRuntime),
        lookupA w.runtime sym = some rt →
        strTruthy rt.next_wakeup_ts = true →
        shipReadiness w sym now =
          Except.ok (max (strOr rt.next_wakeup_ts now) now)) ∧
    (∀ (w : Warehouse) (sym now : String) (rt : ShipRuntime),
        lookupA w.runtime sym = some rt →
        strTruthy rt.next_wakeup_ts = false →
        shipReadiness w sym now = shipReadinessFallback w sym now) ∧
    (∀ (w : Warehouse) (sym now : String) (ship : Ship),
        lookupA w.ships_by_symbol sym = some ship →
        shipReadinessFallback w sym now =
          Except.error (PyError.attributeError "ShipCooldown" "expiration")) := by
  refine ⟨?_, ?_, ?_⟩
  · intro w sym now rt hr ht
    unfold shipReadiness
    rw [hr]
    simp [ht]
  · intro w sym now rt hr ht
    unfold shipReadiness
    rw [hr]
    simp [ht]
  · intro w sym now ship hs
    unfold shipReadinessFallback
    rw [hs]
    rfl

/-- Witness for C3: a set wakeup is honoured; the fallback for a known ship
raises. -/
theorem c3_witness :
    shipReadiness
        { runtime :=
            [("SHIP-A",
              { next_wakeup_ts := some "2026-01-02T00:00:00.000Z" })] }
        "SHIP-A" "2026-01-01T00:00:00.000Z"
      = Except.ok
          (max (strOr (some "2026-01-02T00:00:00.000Z")
            "2026-01-01T00:00:00.000Z") "2026-01-01T00:00:00.000Z") ∧
    shipReadinessFallback c2Warehouse "SHIP-A" "2026-01-01T00:00:00.000Z"
      = Except.error (PyError.attributeError "ShipCooldown" "expiration") :=
  ⟨c3_ship_readiness_wakeup_ok_fallback_raises.1
      { runtime :=
          [("SHIP-A", { next_wakeup_ts := some "2026-01-02T00:00:00.000Z" })] }
      "SHIP-A" "2026-01-01T00:00:00.000Z"
      { next_wakeup_ts := some "2026-01-02T00:00:00.000Z" } rfl (by decide),
   c3_ship_readiness_wakeup_ok_fallback_raises.2.2 c2Warehouse "SHIP-A"
      "2026-01-01T00:00:00.000Z" c2SampleShip rfl⟩

/-- C4: the claim says the cargo-full IDLE excavator branch attempts
`find_best_marketplace_for_cargo(min_sell_price=10)` and on success sets
`selling`/`target_market` and returns PROBE_VISIT_MARKET.  On the code this
cannot happen: (1) `decide_next_action` already raises `AttributeError` at
`ship.cooldown.expiration` (dispatcher.py line 82) before any branch; and
(2) even entering the decision tree directly, the call at dispatcher.py
line 227 passes the keyword `min_sell_price`, which
`Markets.find_best_marketplace_for_cargo` (markets.py line 93) does not
accept, so binding raises `TypeError`, the `except` at lines 244-245
swallows it, and the branch returns NOOP — never PROBE_VISIT_MARKET. -/
theorem c4_full_excavator_noop_instead_of_probe :
    decideNextAction c4Warehouse sampleOracle "EXC-1"
      = Except.error (PyError.attributeError "ShipCooldown" "expiration") ∧
    bindKwargs "find_best_marketplace_for_cargo"
        findBestMarketplaceForCargoParams ["min_sell_price"]
      = Except.error
          (PyError.typeError "find_best_marketplace_for_cargo" "min_sell_price") ∧
    decideTree c4Warehouse sampleOracle "EXC-1" c4Ship ({} : ShipRuntime)
      = (ShipAction.NOOP, c4Warehouse, []) :=
  ⟨rfl, rfl, rfl⟩

/-- Computation rule: binding a successful `Except` applies the
continuation. -/
theorem okBind {ε α β : Type} (a : α) (f : α → Except ε β) :
    (Except.ok a : Except ε α) >>= f = f a := rfl

/-- Computation rule: binding a failed `Except` keeps the error. -/
theorem errorBind {ε α β : Type} (e : ε) (f : α → Except ε β) :
    (Except.error e : Except ε α) >>= f = Except.error e := rfl

/-- Computation rule: mapping over a successful `Except`. -/
theorem okMap {ε α β : Type} (a : α) (f : α → β) :
    f <$> (Except.ok a : Except ε α) = Except.ok (f a) := rfl

/-- Computation rule: mapping over a failed `Except`. -/
theorem errorMap {ε α β : Type} (e : ε) (f : α → β) :
    f <$> (Except.error e : Except ε α) = Except.error e := rfl

/-- The 4113 abort propagates through `awareRequest`. -/
theorem awareRequest_4113 (o : Nat → HttpResponse)
    (h : bodyIs4113 (o 0).body = true) :
    awareRequest o = Except.error (abortFor (o 0)) := by
  unfold awareRequest abortCheck
  simp [h, errorBind]

/-- `awareRequest` only returns responses that passed the abort check. -/
theorem awareRequest_ok_not4113 (o : Nat → HttpResponse) (r : HttpResponse)
    (h : awareRequest o = Except.ok r) : bodyIs4113 r.body = false := by
  unfold awareRequest abortCheck at h
  cases h0 : bodyIs4113 (o 0).body with
  | true => simp [h0, errorBind] at h
  | false =>
    cases hh : handle429 (o 0) with
    | true =>
      cases h1 : bodyIs4113 (o 1).body with
      | true => simp [h0, hh, h1, okBind, errorBind, errorMap] at h
      | false =>
        simp [h0, hh, h1, okBind, okMap] at h
        rw [← h]
        exact h1
    | false =>
      simp [h0, hh, okBind] at h
      rw [← h]
      exact h0

/-- C5: every response whose parsed body is a dict with `error.code == 4113`
makes the helpers terminate via `SystemExit(1)` after emitting the message
(`_abort_on_token_reset_mismatch`, handle_requests.py lines 58-71, called on
every response of `get_json`, `post_json` and `patch_json`), and no
response with such a body is ever returned to a caller. -/
theorem c5_transport_4113_fatal_never_returned :
    ∀ (o : Nat → HttpResponse),
      (bodyIs4113 (o 0).body = true →
        getJson o = Except.error (abortFor (o 0)) ∧
        postJson o = Except.error (abortFor (o 0)) ∧
        patchJson o = Except.error (abortFor (o 0)) ∧
        (abortFor (o 0)).exitCode = 1) ∧
      (∀ b, getJson o = Except.ok b → bodyIs4113 b = false) ∧
      (∀ b, postJson o = Except.ok b → bodyIs4113 b = false) ∧
      (∀ b, patchJson o = Except.ok b → bodyIs4113 b = false) := by
  intro o
  have hget : ∀ b, getJson o = Except.ok b → bodyIs4113 b = false := by
    intro b hb
    unfold getJson at hb
    cases ha : awareRequest o with
    | error e => rw [ha] at hb; simp at hb
    | ok r =>
      rw [ha] at hb
      simp at hb
      rw [← hb]
      exact awareRequest_ok_not4113 o r ha
  refine ⟨?_, hget, ?_, ?_⟩
  · intro h
    have hreq := awareRequest_4113 o h
    refine ⟨?_, ?_, ?_, ?_⟩
    · unfold getJson; rw [hreq]; rfl
    · unfold postJson; rw [hreq]; rfl
    · unfold patchJson; rw [hreq]; rfl
    · unfold abortFor
      cases hb : (o 0).body with
      | invalid => rfl
      | nonDict => rfl
      | obj e => cases e <;> rfl
  · intro b hb
    exact hget b hb
  · intro b hb
    exact hget b hb

/-- Witness for C5 at the concrete 4113 oracle. -/
theorem c5_witness :
    bodyIs4113 (c5Oracle 0).body = true ∧
    getJson c5Oracle = Except.error (abortFor (c5Oracle 0)) ∧
    postJson c5Oracle = Except.error (abortFor (c5Oracle 0)) ∧
    patchJson c5Oracle = Except.error (abortFor (c5Oracle 0)) ∧
    (abortFor (c5Oracle 0)).exitCode = 1 ∧
    (abortFor (c5Oracle 0)).emitted = "4113: Token reset_date mismatch" :=
  ⟨rfl,
   ((c5_transport_4113_fatal_never_returned c5Oracle).1 rfl).1,
   ((c5_transport_4113_fatal_never_returned c5Oracle).1 rfl).2.1,
   ((c5_transport_4113_fatal_never_returned c5Oracle).1 rfl).2.2.1,
   ((c5_transport_4113_fatal_never_returned c5Oracle).1 rfl).2.2.2,
   rfl⟩

/-- The `expiration` access always raises, whatever the cooldown value. -/
theorem getExpiration_eq (c : ShipCooldown) :
    c.getExpiration =
      Except.error (PyError.attributeError "ShipCooldown" "expiration") := rfl

/-- C6 counterexample: the claim says `decide_next_action` performs no side
effect on the world and two consecutive calls return the same action.  At
this well-formed state the call returns no action at all — it raises
`AttributeError` (dispatcher.py line 82) — and the decision tree it guards
issues a world-mutating `POST /jettison` through `_jettison_unworthy`
(dispatcher.py lines 173-213, called at line 218) on its not-full excavator
path. -/
theorem c6_counterexample_side_effects :
    decideNextAction c6Warehouse c6Oracle "EXC-1"
      = Except.error (PyError.attributeError "ShipCooldown" "expiration") ∧
    decideTree c6Warehouse c6Oracle "EXC-1" c6Ship ({} : ShipRuntime)
      = (ShipAction.NAVIGATE_TO_MINE, c6Warehouse,
         [ApiEffect.getCargo "EXC-1", ApiEffect.jettison "EXC-1" "ICE_WATER" 5]) ∧
    (jettisonUnworthy c6Warehouse c6Oracle "EXC-1" 10).2.contains
        (ApiEffect.jettison "EXC-1" "ICE_WATER" 5) = true :=
  ⟨rfl, rfl, rfl⟩

/-- C6 amended: on the code as written, `decide_next_action` either returns
NOOP with the warehouse untouched and no remote call (exactly when the ship
or its runtime entry is missing), or raises the `ShipCooldown.expiration`
`AttributeError`; the world-mutating jettison path of its decision tree is
reachable only through the tree directly. -/
theorem c6_amended_dispatcher_characterisation :
    (∀ (w : Warehouse) (o : RemoteOracle) (sym : String)
        (r : ShipAction × Warehouse × List ApiEffect),
        decideNextAction w o sym = Except.ok r →
        r.1 = ShipAction.NOOP ∧ r.2.1 = w ∧ r.2.2 = [] ∧
        (lookupA w.ships_by_symbol sym = none ∨ lookupA w.runtime sym = none)) ∧
    (∀ (w : Warehouse) (o : RemoteOracle) (sym : String) (e : PyError),
        decideNextAction w o sym = Except.error e →
        e = PyError.attributeError "ShipCooldown" "expiration") := by
  constructor
  · intro w o sym r hok
    unfold decideNextAction at hok
    cases hs : lookupA w.ships_by_symbol sym with
    | none =>
      cases hr : lookupA w.runtime sym with
      | none =>
        rw [hs, hr] at hok
        have h2 : Except.ok
            ((ShipAction.NOOP, w, []) : ShipAction × Warehouse × List ApiEffect)
            = Except.ok r := hok
        injection h2 with h3
        subst h3
        exact ⟨rfl, rfl, rfl, Or.inl rfl⟩
      | some rt =>
        rw [hs, hr] at hok
        have h2 : Except.ok
            ((ShipAction.NOOP, w, []) : ShipAction × Warehouse × List ApiEffect)
            = Except.ok r := hok
        injection h2 with h3
        subst h3
        exact ⟨rfl, rfl, rfl, Or.inl rfl⟩
    | some ship =>
      cases hr : lookupA w.runtime sym with
      | none =>
        rw [hs, hr] at hok
        have h2 : Except.ok
            ((ShipAction.NOOP, w, []) : ShipAction × Warehouse × List ApiEffect)
            = Except.ok r := hok
        injection h2 with h3
        subst h3
        exact ⟨rfl, rfl, rfl, Or.inr rfl⟩
      | some rt =>
        rw [hs, hr] at hok
        have h2 : (Except.error (PyError.attributeError "ShipCooldown" "expiration")
            : Except PyError (ShipAction × Warehouse × List ApiEffect))
            = Except.ok r := hok
        exact absurd h2 (by simp)
  · intro w o sym e herr
    unfold decideNextAction at herr
    cases hs : lookupA w.ships_by_symbol sym with
    | none =>
      cases hr : lookupA w.runtime sym with
      | none =>
        rw [hs, hr] at herr
        have h2 : Except.ok
            ((ShipAction.NOOP, w, []) : ShipAction × Warehouse × List ApiEffect)
            = Except.error e := herr
        exact absurd h2 (by simp)
      | some rt =>
        rw [hs, hr] at herr
        have h2 : Except.ok
            ((ShipAction.NOOP, w, []) : ShipAction × Warehouse × List ApiEffect)
            = Except.error e := herr
        exact absurd h2 (by simp)
    | some ship =>
      cases hr : lookupA w.runtime sym with
      | none =>
        rw [hs, hr] at herr
        have h2 : Except.ok
            ((ShipAction.NOOP, w, []) : ShipAction × Warehouse × List ApiEffect)
            = Except.error e := herr
        exact absurd h2 (by simp)
      | some rt =>
        rw [hs, hr] at herr
        have h2 : (Except.error (PyError.attributeError "ShipCooldown" "expiration")
            : Except PyError (ShipAction × Warehouse × List ApiEffect))
            = Except.error e := herr
        injection h2 with h3
        exact h3.symm

/-- Witness for the amended C6: the NOOP case at a concrete malformed state
and the error case at the concrete well-formed one. -/
theorem c6_amended_witness :
    ((ShipAction.NOOP, ({} : Warehouse), ([] : List ApiEffect)).2.2 = [] ∧
      (lookupA ({} : Warehouse).ships_by_symbol "EXC-1" = none ∨
        lookupA ({} : Warehouse).runtime "EXC-1" = none)) ∧
    PyError.attributeError "ShipCooldown" "expiration"
      = PyError.attributeError "ShipCooldown" "expiration" :=
  ⟨⟨(c6_amended_dispatcher_characterisation.1 {} sampleOracle "EXC-1"
        (ShipAction.NOOP, {}, []) rfl).2.2.1,
    (c6_amended_dispatcher_characterisation.1 {} sampleOracle "EXC-1"
        (ShipAction.NOOP, {}, []) rfl).2.2.2⟩,
   c6_amended_dispatcher_characterisation.2 c6Warehouse c6Oracle "EXC-1"
      (PyError.attributeError "ShipCooldown" "expiration") rfl⟩

/-- C7: after `upsert_market_snapshot(s, m)` for a dict payload naming
waypoint `wp` and carrying `tradeGoods`, the stored snapshot for `wp` holds
exactly `m.tradeGoods` (warehouse.py lines 178-184): the previous snapshot
is replaced by the most recent one. -/
theorem c7_upsert_market_snapshot_replaces :
    ∀ (w : Warehouse) (sys now : String) (m : MarketPayload) (wp : String)
      (gs : List TradeGood),
      marketWaypointKey m = some wp →
      m.tradeGoods = some gs →
      ∃ snap,
        lookupA (upsertMarketSnapshot w sys m now).1.market_prices_by_waypoint
            wp = some snap ∧
        snap.tradeGoods = gs := by
  intro w sys now m wp gs hk hg
  simp only [upsertMarketSnapshot, hk]
  exact ⟨_, lookupA_updateA_self _ _ _, by simp [hg]⟩

/-- Witness for C7: replacing an existing W1 snapshot with a fresh payload
stores the payload's goods. -/
theorem c7_witness :
    marketWaypointKey
        { symbol := some "W1",
          tradeGoods := some [{ symbol := some "FUEL", sellPrice := some 60 }] }
      = some "W1" ∧
    ∃ snap,
      lookupA
          (upsertMarketSnapshot
            { market_prices_by_waypoint :=
                [("W1",
                  { systemSymbol := "X1-A", waypointSymbol := "W1",
                    seenAt := "2026-01-01T00:00:00Z",
                    tradeGoods := [{ symbol := some "FUEL", sellPrice := some 50 }] })] }
            "X1-A"
            { symbol := some "W1",
              tradeGoods := some [{ symbol := some "FUEL", sellPrice := some 60 }] }
            "2026-01-02T00:00:00Z").1.market_prices_by_waypoint "W1"
        = some snap ∧
      snap.tradeGoods = [{ symbol := some "FUEL", sellPrice := some 60 }] :=
  ⟨rfl,
   c7_upsert_market_snapshot_replaces
      { market_prices_by_waypoint :=
          [("W1",
            { systemSymbol := "X1-A", waypointSymbol := "W1",
              seenAt := "2026-01-01T00:00:00Z",
              tradeGoods := [{ symbol := some "FUEL", sellPrice := some 50 }] })] }
      "X1-A" "2026-01-02T00:00:00Z"
      { symbol := some "W1",
        tradeGoods := some [{ symbol := some "FUEL", sellPrice := some 60 }] }
      "W1" [{ symbol := some "FUEL", sellPrice := some 60 }] rfl rfl⟩

/-- The selection step never produces an excluded symbol. -/
theorem unvisitedStep_not_excluded (w2 : Warehouse) (current : Option String)
    (exclude : List String) (acc : Option (String × Option Int))
    (p : WaypointPayload)
    (hacc : ∀ s d, acc = some (s, d) → exclude.contains s = false) :
    ∀ s d, unvisitedStep w2 current exclude acc p = some (s, d) →
      exclude.contains s = false := by
  intro s d h
  unfold unvisitedStep at h
  cases hp : p.symbol with
  | none => rw [hp] at h; exact hacc s d h
  | some sym =>
    rw [hp] at h
    by_cases h1 : sym = ""
    · simp only [h1, if_true] at h
      exact hacc s d (by simpa using h)
    · simp only [h1, if_false] at h
      by_cases h2 : (lookupA w2.market_prices_by_waypoint sym).isSome
      · simp only [h2, if_true] at h
        exact hacc s d h
      · simp only [h2, if_false] at h
        cases h3 : exclude.contains sym with
        | true => simp only [h3, if_true] at h; exact hacc s d h
        | false =>
          simp only [h3, Bool.false_eq_true, if_false] at h
          cases hacc2 : acc with
          | none =>
            rw [hacc2] at h
            simp at h
            rw [← h.1]
            exact h3
          | some pr =>
            rw [hacc2] at h
            obtain ⟨bs, bd⟩ := pr
            by_cases h4 : distLt (waypointDistanceSq w2 current sym) bd = true
            · simp only [h4, if_true] at h
              simp at h
              rw [← h.1]
              exact h3
            · simp only [h4, if_false] at h
              exact hacc bs bd hacc2 ▸ hacc s d (hacc2 ▸ h)

/-- The whole selection fold never produces an excluded symbol. -/
theorem unvisitedFold_not_excluded (w2 : Warehouse) (current : Option String)
    (exclude : List String) :
    ∀ (payloads : List WaypointPayload) (acc : Option (String × Option Int)),
      (∀ s d, acc = some (s, d) → exclude.contains s = false) →
      ∀ s d,
        payloads.foldl (unvisitedStep w2 current exclude) acc = some (s, d) →
        exclude.contains s = false := by
  intro payloads
  induction payloads with
  | nil => intro acc hacc s d h; exact hacc s d h
  | cons p ps ih =>
    intro acc hacc s d h
    exact ih (unvisitedStep w2 current exclude acc p)
      (unvisitedStep_not_excluded w2 current exclude acc p hacc) s d h

/-- C8 amended: the exclude-set mechanism of the probe branch does hold at
the selection level — `find_nearest_unvisited_marketplace` never returns a
target in the exclude set the dispatcher builds from all runtimes'
`target_market` values (markets.py lines 162-170, dispatcher.py
lines 102-107). -/
theorem c8_amended_probe_selection_excludes_claimed :
    ∀ (w : Warehouse) (o : RemoteOracle) (shipSym t : String)
      (exclude : List String),
      (findNearestUnvisitedMarketplace w o shipSym exclude).1 = some t →
      exclude.contains t = false := by
  intro w o shipSym t exclude h
  unfold findNearestUnvisitedMarketplace at h
  cases hp : (o.findMarketWaypoints
      (strOr (o.getShip shipSym).nav.systemSymbol "")).isEmpty with
  | true => simp [hp] at h
  | false =>
    simp only [hp, Bool.false_eq_true, if_false] at h
    simp only [Option.map_eq_some'] at h
    obtain ⟨pr, hfold, hfst⟩ := h
    obtain ⟨s, d⟩ := pr
    have := unvisitedFold_not_excluded _ _ exclude _ none
      (by intro s0 d0 hc; simp at hc) s d hfold
    rw [← hfst]
    exact this

/-- C8 counterexample: the claim says every operation that assigns a
`target_market` preserves no-duplicates.  The executor's re-target after a
partial sale (executor.py lines 276-296) consults no exclude set: from a
state satisfying the invariant it assigns W1 to EXC-1 although PROBE-1
already claims W1, leaving two runtimes with the same target. -/
theorem c8_counterexample_executor_retarget_duplicates :
    targetsNodup c8Warehouse = true ∧
    targetsNodup (executorRetargetAfterSale c8Warehouse c8Oracle "EXC-1").1
      = false :=
  ⟨rfl, rfl⟩

/-- Witness for the amended C8: with W1 claimed, the selection returns W2,
and the theorem yields that W2 is not in the exclude set. -/
theorem c8_amended_witness :
    (findNearestUnvisitedMarketplace c8wWarehouse c8wOracle "PROBE-1"
        (excludeTargets c8wWarehouse)).1 = some "W2" ∧
    (excludeTargets c8wWarehouse).contains "W2" = false :=
  ⟨rfl,
   c8_amended_probe_selection_excludes_claimed c8wWarehouse c8wOracle
      "PROBE-1" "W2" (excludeTargets c8wWarehouse) rfl⟩

/-- C9: `insert` (queue.py lines 21-24) increments the per-queue
`_sequence` counter and tags the entry with the fresh value, so sequence
numbers are strictly increasing across inserts; and `extract_min` pops a
smallest entry in `(priority, sequence)` order, so of two entries with
equal priority the one with the larger sequence — the later push — is never
the one popped while the earlier one is present: equal-priority items come
out FIFO. -/
theorem c9_fifo_tiebreak {π α : Type} [LinearOrder π] (h : MinHeap π α)
    (item : α) (p0 p : π) (s₁ s₂ : Nat) (a b : α) (e : π × Nat × α) :
    ((h.insert item p0).seq = h.seq + 1 ∧
      (p0, h.seq + 1, item) ∈ (h.insert item p0).heap) ∧
    ((p, s₁, a) ∈ h.heap → (p, s₂, b) ∈ h.heap → s₁ < s₂ →
      h.poppedEntry = some e →
      keyLe (entryKey e) (p, s₁) ∧ entryKey e ≠ (p, s₂) ∧ e ≠ (p, s₂, b)) := by
  constructor
  · exact ⟨rfl, List.mem_cons_self _ _⟩
  · intro h1 _h2 hlt hpop
    have hke : keyLe (entryKey e) (p, s₁) :=
      pickMin_le h.heap e hpop (p, s₁, a) h1
    have hklt : keyLt ((p, s₁) : π × Nat) (p, s₂) := Or.inr ⟨rfl, hlt⟩
    have hne : entryKey e ≠ (p, s₂) := keyLe_ne_of_lt hke hklt
    refine ⟨hke, hne, ?_⟩
    intro heq
    exact hne (by rw [heq]; rfl)

/-- Witness for C9: the second insert got sequence 2 > 1, the pop takes the
earlier entry, and the two equal-priority pushes come out in push order. -/
theorem c9_witness :
    ((c9Demo.insert "SHIP-C" 3).seq = c9Demo.seq + 1 ∧
      (3, c9Demo.seq + 1, "SHIP-C") ∈ (c9Demo.insert "SHIP-C" 3).heap) ∧
    (keyLe (entryKey ((5, 1, "SHIP-A") : Nat × Nat × String)) (5, 1) ∧
      entryKey ((5, 1, "SHIP-A") : Nat × Nat × String) ≠ (5, 2) ∧
      ((5, 1, "SHIP-A") : Nat × Nat × String) ≠ (5, 2, "SHIP-B")) ∧
    c9Demo.extract_min.1 = some "SHIP-A" ∧
    c9Demo.extract_min.2.extract_min.1 = some "SHIP-B" ∧
    c9Demo.extract_min.2.extract_min.2.extract_min.1 = none :=
  ⟨(c9_fifo_tiebreak c9Demo "SHIP-C" 3 5 1 2 "SHIP-A" "SHIP-B"
      (5, 1, "SHIP-A")).1,
   (c9_fifo_tiebreak c9Demo "SHIP-C" 3 5 1 2 "SHIP-A" "SHIP-B"
      (5, 1, "SHIP-A")).2 (by simp [c9Demo, MinHeap.insert])
      (by simp [c9Demo, MinHeap.insert]) (by decide) (by decide),
   by decide, by decide, by decide⟩

/-- C10: the claim says a sold item gets BOTH a trades.log line AND a
persistent transaction row.  On the code the trades.log write (markets.py
lines 248-264) is nested inside the `except` handler of the
`insert_transaction` `try` (lines 230-247), so on the normal path — sale
succeeds, insert succeeds — only the row is written and no log line; the
log line appears only when the insert raises, and then without the row. -/
theorem c10_sell_writes_row_without_log :
    ((sellItemStep "EXC-1" "W1" (some "W1") "W1" c10Goods c10Item c10Resp
        false).any SellEffect.isInsertTransaction = true ∧
      (sellItemStep "EXC-1" "W1" (some "W1") "W1" c10Goods c10Item c10Resp
        false).any SellEffect.isTradeLogLine = false) ∧
    ((sellItemStep "EXC-1" "W1" (some "W1") "W1" c10Goods c10Item c10Resp
        true).any SellEffect.isTradeLogLine = true ∧
      (sellItemStep "EXC-1" "W1" (some "W1") "W1" c10Goods c10Item c10Resp
        true).any SellEffect.isInsertTransaction = false) :=
  ⟨⟨rfl, rfl⟩, ⟨rfl, rfl⟩⟩

end SpaceTraders
